import Mathlib

/-
Verification development for the NOVA backend (src/backend/main.py).
Strings are modelled as lists of characters; CPython float arithmetic on
similarity ratios and PCM samples is modelled with exact rationals, and
str.lower / str.strip / str.split are modelled over their ASCII behaviour
(the wake phrase and thresholds in the program are pure ASCII).
-/

namespace Nova

/-- ASCII model of Python str.lower (main.py line 139 and line 101). -/
def pyLower (s : List Char) : List Char := s.map Char.toLower

/-- The whitespace characters stripped and split on by Python str.strip / str.split. -/
def isPySpace (c : Char) : Bool :=
  c == ' ' || c == '\t' || c == '\n' || c == '\r' || c == '\x0b' || c == '\x0c'

/-- Model of Python str.strip with no arguments. -/
def pyStrip (s : List Char) : List Char :=
  ((s.dropWhile isPySpace).reverse.dropWhile isPySpace).reverse

/-- Helper for pySplit: accumulates the current word (reversed). -/
def pySplitAux : List Char → List Char → List (List Char)
  | [], cur => if cur.isEmpty then [] else [cur.reverse]
  | c :: rest, cur =>
    if isPySpace c then
      if cur.isEmpty then pySplitAux rest [] else cur.reverse :: pySplitAux rest []
    else pySplitAux rest (c :: cur)

/-- Model of Python str.split with no arguments: split on runs of whitespace,
dropping empty words (main.py line 153). -/
def pySplit (s : List Char) : List (List Char) := pySplitAux s []

/-
difflib.SequenceMatcher(None, a, b).ratio() with isjunk = None.  In this
program b is always the 7-character wake phrase, so difflib's autojunk
heuristic (which only applies when len(b) >= 200) never fires and the
no-junk algorithm below is exact.
-/

/-- One row of the find_longest_match dynamic program: entry j is the length
of the common run ending at a[i], b[j]. -/
def flmRow (prev : List ℕ) (ai : Char) (b : List Char) : List ℕ :=
  (List.range b.length).map fun j =>
    if b.getD j ' ' == ai then (if j = 0 then 0 else prev.getD (j - 1) 0) + 1 else 0

/-- Scan one row, updating (besti, bestj, bestsize) exactly as difflib does:
a new best only on a strictly larger run, scanning j in increasing order. -/
def flmScan (i : ℕ) (row : List ℕ) (st : ℕ × ℕ × ℕ) : ℕ × ℕ × ℕ :=
  (List.range row.length).foldl
    (fun st j =>
      let k := row.getD j 0
      if st.2.2 < k then (i + 1 - k, j + 1 - k, k) else st) st

/-- difflib SequenceMatcher.find_longest_match over whole lists, no junk.
With no junk the trailing junk-extension loops of difflib are no-ops, since
the dynamic program already returns a maximal run. -/
def findLongestMatch (a b : List Char) : ℕ × ℕ × ℕ :=
  ((List.range a.length).foldl
    (fun p i =>
      let row := flmRow p.2 (a.getD i ' ') b
      (flmScan i row p.1, row))
    ((0, 0, 0), List.replicate b.length 0)).1

/-- Total number of matched characters, i.e. the sum of the sizes of
get_matching_blocks: recursively take the longest match and recurse on both
sides.  Fuel (always sufficient at a.length + b.length + 1) keeps the
recursion structural. -/
def matchedTotalF : ℕ → List Char → List Char → ℕ
  | 0, _, _ => 0
  | fuel + 1, a, b =>
    let r := findLongestMatch a b
    if r.2.2 = 0 then 0
    else
      matchedTotalF fuel (a.take r.1) (b.take r.2.1) + r.2.2
        + matchedTotalF fuel (a.drop (r.1 + r.2.2)) (b.drop (r.2.1 + r.2.2))

/-- difflib SequenceMatcher.ratio: 2*M / (len(a)+len(b)), and 1.0 on two
empty sequences. -/
def ratioQ (a b : List Char) : ℚ :=
  if a.length + b.length = 0 then 1
  else 2 * (matchedTotalF (a.length + b.length + 1) a b : ℚ) / ((a.length + b.length : ℕ) : ℚ)

/-- WakeWordDetector.similarity_score (main.py lines 100-101). -/
def similarity_score (text1 text2 : List Char) : ℚ := ratioQ (pyLower text1) (pyLower text2)

/-- self.wake_phrase = "hi nova" (main.py line 95). -/
def wake_phrase : List Char := "hi nova".data

/-- self.similarity_threshold = 0.7 (main.py line 96). -/
def similarity_threshold : ℚ := 7 / 10

/-- Python round-half-to-even on an exact rational. -/
def roundHalfEven (q : ℚ) : ℤ :=
  let f := ⌊q⌋
  if q - (f : ℚ) < 1 / 2 then f
  else if (1 / 2 : ℚ) < q - (f : ℚ) then f + 1
  else if f % 2 = 0 then f else f + 1

/-- Python round(x, 2) modelled on exact rationals. -/
def roundQ2 (q : ℚ) : ℚ := (roundHalfEven (q * 100) : ℚ) / 100

/-- Left-pad a two-digit fractional part. -/
def twoDigits (n : ℤ) : String := if n < 10 then "0" ++ toString n else toString n

/-- Python f-string formatting with :.2f, modelled on exact rationals
(used for nonnegative similarity values). -/
def fmt2 (q : ℚ) : String :=
  let n := roundHalfEven (q * 100)
  toString (n / 100) ++ "." ++ twoDigits (n % 100)

/-- Does the first list start the second one? -/
def startsWithL : List Char → List Char → Bool
  | [], _ => true
  | _ :: _, [] => false
  | c :: cs, d :: ds => c == d && startsWithL cs ds

/-- Python substring containment (the in operator on str): needle occurs
contiguously in hay. -/
def containsSub (needle : List Char) : List Char → Bool
  | [] => needle.isEmpty
  | d :: rest => startsWithL needle (d :: rest) || containsSub needle rest

/-- The dictionary returned by WakeWordDetector.detect. -/
structure DetectionResult where
  detected : Bool
  confidence : ℚ
  reason : String
  deriving DecidableEq

/-- The text-matching path of WakeWordDetector.detect (main.py lines 138-166):
lower-case and strip the transcript, direct substring match, otherwise the
maximum of the full-string similarity and the similarity of every contiguous
2-word window, with threshold test, boosted and rounded confidence, and a
formatted reason string. -/
def detect_text (transcript : List Char) : DetectionResult :=
  let transcript_clean := pyStrip (pyLower transcript)
  if containsSub wake_phrase transcript_clean then
    { detected := true, confidence := 95 / 100, reason := "Direct match found" }
  else
    let words := pySplit transcript_clean
    let similarity :=
      (List.range (words.length - 1)).foldl
        (fun s i =>
          max s (similarity_score (words.getD i [] ++ ' ' :: words.getD (i + 1) []) wake_phrase))
        (similarity_score transcript_clean wake_phrase)
    { detected := decide (similarity_threshold ≤ similarity),
      confidence := roundQ2 (min (similarity * (6 / 5)) 1),
      reason := "Similarity score: " ++ fmt2 similarity }

/-- The has_speech value computed at the top of detect (main.py lines 127-129):
has_speech starts True and the gate is consulted only when audio_data is
truthy (present and non-empty). -/
def hasSpeechOf (gate : List ℕ → ℕ → Bool) (audio_data : Option (List ℕ))
    (sample_rate : ℕ) : Bool :=
  match audio_data with
  | none => true
  | some bs => if bs.isEmpty then true else gate bs sample_rate

/-- WakeWordDetector.detect (main.py lines 125-166), with the voice-activity
gate abstracted as an oracle. -/
def detect (gate : List ℕ → ℕ → Bool) (transcript : List Char)
    (audio_data : Option (List ℕ)) (sample_rate : ℕ) : DetectionResult :=
  if !hasSpeechOf gate audio_data sample_rate then
    { detected := false, confidence := 0, reason := "No speech activity detected" }
  else detect_text transcript

/-- The cleaned transcript, as the spec describes it. -/
def transcript_clean (t : List Char) : List Char := pyStrip (pyLower t)

/-- Similarity of every contiguous 2-word window of the transcript against
the wake phrase (spec formulation, built with zip rather than an index loop). -/
def wake_window_sims (tc : List Char) : List ℚ :=
  ((pySplit tc).zip (pySplit tc).tail).map fun p =>
    similarity_score (p.1 ++ ' ' :: p.2) wake_phrase

/-- Maximum similarity over the full transcript and all 2-word windows
(spec formulation of the matcher's kept maximum). -/
def max_similarity (tc : List Char) : ℚ :=
  (wake_window_sims tc).foldl max (similarity_score tc wake_phrase)

/-
WakeWordDetector.has_speech_activity (main.py lines 103-123).  The WebRTC
voice-activity model and librosa resampling are external collaborators,
modelled as fallible oracles; raising an exception is modelled as
Except.error.
-/

/-- frame_size = int(16000 * 30 / 1000) * 2 (main.py lines 112-113). -/
def frame_size : ℕ := 16000 * 30 / 1000 * 2

/-- Python range(start, stop, step) for a positive step, as a list. -/
def pyRange3 (start stop step : ℕ) : List ℕ :=
  (List.range ((stop - start + step - 1) / step)).map fun k => start + k * step

/-- The frame start offsets iterated by the loop
for i in range(0, len(audio_data) - frame_size, frame_size) (main.py line 115). -/
def vad_frame_starts (len : ℕ) : List ℕ := pyRange3 0 (len - frame_size) frame_size

/-- audio_data[i:i + frame_size] (main.py line 116). -/
def frameAt (audio : List ℕ) (i : ℕ) : List ℕ := (audio.drop i).take frame_size

/-- The frame loop of has_speech_activity (main.py lines 115-120): visit each
start offset, skip short frames, return True on the first frame the
voice-activity model classifies as speech, propagate a raised error. -/
def speechLoopE (vad : List ℕ → Except String Bool) (audio : List ℕ) :
    List ℕ → Except String Bool
  | [] => Except.ok false
  | i :: rest =>
    if (frameAt audio i).length = frame_size then
      match vad (frameAt audio i) with
      | Except.error e => Except.error e
      | Except.ok true => Except.ok true
      | Except.ok false => speechLoopE vad audio rest
    else speechLoopE vad audio rest

/-- The body of the try block of has_speech_activity (main.py lines 104-120):
resample when the sample rate is not 16 kHz, then scan the frames. -/
def gateBody (resample : List ℕ → Except String (List ℕ))
    (vad : List ℕ → Except String Bool) (audio_data : List ℕ) (sample_rate : ℕ) :
    Except String Bool :=
  match (if sample_rate ≠ 16000 then resample audio_data else Except.ok audio_data) with
  | Except.error e => Except.error e
  | Except.ok audio16 => speechLoopE vad audio16 (vad_frame_starts audio16.length)

/-- WakeWordDetector.has_speech_activity (main.py lines 103-123): the whole
body is wrapped in try/except, and any raised error yields True (fail-open,
main.py lines 121-123). -/
def has_speech_activity (resample : List ℕ → Except String (List ℕ))
    (vad : List ℕ → Except String Bool) (audio_data : List ℕ) (sample_rate : ℕ) : Bool :=
  match gateBody resample vad audio_data sample_rate with
  | Except.ok b => b
  | Except.error _ => true

/-- All the full 960-byte frames of the buffer, partial tail discarded:
the frame population the spec says is analyzed. -/
def fullFrames (audio : List ℕ) : List (List ℕ) :=
  (List.range (audio.length / frame_size)).map fun k => frameAt audio (frame_size * k)

/-- The claimed gate semantics (C7): speech iff some full frame is speech. -/
def claimGate (vad : List ℕ → Bool) (audio : List ℕ) : Bool := (fullFrames audio).any vad

/-- The frames the code actually analyzes: when frame_size divides the buffer
length the final full frame is skipped too, because the loop bound
len(audio_data) - frame_size is exclusive. -/
def analyzedFrames (audio : List ℕ) : List (List ℕ) :=
  if frame_size ∣ audio.length then (fullFrames audio).dropLast else fullFrames audio

/-
Raw-PCM reconstruction inside save_buffer_to_temp_file (main.py lines
252-271).  Byte buffers are lists of byte values; numpy int16/int32 views are
little-endian; float32 arithmetic is modelled with exact rationals.
-/

/-- Raised errors of the raw-PCM reconstruction step. -/
inductive PcmError
  | bufferSize          -- np.frombuffer: buffer length not a multiple of the item size
  | unsupportedBitDepth -- ValueError("Unsupported bit depth") (main.py line 264)
  | channelMismatch     -- np.reshape(-1, channels): samples do not divide evenly
  deriving DecidableEq

/-- Two little-endian bytes as a signed 16-bit integer. -/
def toInt16 (b0 b1 : ℕ) : ℤ :=
  let u := b0 + 256 * b1
  if u < 32768 then (u : ℤ) else (u : ℤ) - 65536

/-- Four little-endian bytes as a signed 32-bit integer. -/
def toInt32 (b0 b1 b2 b3 : ℕ) : ℤ :=
  let u := b0 + 256 * b1 + 65536 * b2 + 16777216 * b3
  if u < 2147483648 then (u : ℤ) else (u : ℤ) - 4294967296

/-- Consecutive byte pairs as int16 samples. -/
def int16s : List ℕ → List ℤ
  | b0 :: b1 :: rest => toInt16 b0 b1 :: int16s rest
  | _ => []

/-- Consecutive byte quadruples as int32 samples. -/
def int32s : List ℕ → List ℤ
  | b0 :: b1 :: b2 :: b3 :: rest => toInt32 b0 b1 b2 b3 :: int32s rest
  | _ => []

/-- np.frombuffer(audio_buffer, dtype=np.int16): fails unless the buffer
length is a multiple of the item size. -/
def frombuffer16 (buf : List ℕ) : Except PcmError (List ℤ) :=
  if buf.length % 2 = 0 then Except.ok (int16s buf) else Except.error PcmError.bufferSize

/-- np.frombuffer(audio_buffer, dtype=np.int32). -/
def frombuffer32 (buf : List ℕ) : Except PcmError (List ℤ) :=
  if buf.length % 4 = 0 then Except.ok (int32s buf) else Except.error PcmError.bufferSize

/-- The integer sample array audio_array of main.py lines 254-262, by bit
depth: int16, int32, or uint8 bytes taken directly. -/
def audio_array (buf : List ℕ) (bit_depth : ℕ) : Except PcmError (List ℤ) :=
  if bit_depth = 16 then frombuffer16 buf
  else if bit_depth = 32 then frombuffer32 buf
  else if bit_depth = 8 then Except.ok (buf.map fun b : ℕ => (b : ℤ))
  else Except.error PcmError.unsupportedBitDepth

/-- The float sample array audio_float of main.py lines 254-264, with the
rescaling written inline exactly as in the source: int16 / 32768.0,
int32 / 2147483648.0, (uint8 - 128.0) / 128.0, any other bit depth raises. -/
def audio_float (buf : List ℕ) (bit_depth : ℕ) : Except PcmError (List ℚ) :=
  if bit_depth = 16 then (frombuffer16 buf).map (List.map fun v : ℤ => (v : ℚ) / 32768)
  else if bit_depth = 32 then (frombuffer32 buf).map (List.map fun v : ℤ => (v : ℚ) / 2147483648)
  else if bit_depth = 8 then Except.ok (buf.map fun b : ℕ => ((b : ℚ) - 128) / 128)
  else Except.error PcmError.unsupportedBitDepth

/-- The whole raw-PCM reconstruction step (main.py lines 252-271): build the
float samples, then audio_float.reshape(-1, channels) when channels > 1,
which raises unless the sample count divides evenly.  The samples are
returned flat; the reshape only contributes its divisibility check. -/
def save_buffer_raw_pcm (buf : List ℕ) (channels bit_depth : ℕ) :
    Except PcmError (List ℚ) :=
  match audio_float buf bit_depth with
  | Except.error e => Except.error e
  | Except.ok xs =>
    if 1 < channels then
      if xs.length % channels = 0 then Except.ok xs
      else Except.error PcmError.channelMismatch
    else Except.ok xs

/-- The spec's raw-PCM rescale rule, written from its words: 16-bit signed
divide by 32768.0, 32-bit signed divide by 2147483648.0, 8-bit unsigned
subtract 128.0 then divide by 128.0. -/
def pcmRescale (bit_depth : ℕ) (v : ℤ) : ℚ :=
  if bit_depth = 16 then (v : ℚ) / 32768
  else if bit_depth = 32 then (v : ℚ) / 2147483648
  else ((v : ℚ) - 128) / 128

/-- The inverse of the rescale rule, per bit depth. -/
def pcmUnscale (bit_depth : ℕ) (x : ℚ) : ℚ :=
  if bit_depth = 16 then x * 32768
  else if bit_depth = 32 then x * 2147483648
  else x * 128 + 128

instance {ε α : Type} [DecidableEq ε] [DecidableEq α] : DecidableEq (Except ε α) := fun x y =>
  match x, y with
  | Except.ok a, Except.ok b =>
    if h : a = b then Decidable.isTrue (by rw [h]) else Decidable.isFalse (by simp [h])
  | Except.error a, Except.error b =>
    if h : a = b then Decidable.isTrue (by rw [h]) else Decidable.isFalse (by simp [h])
  | Except.ok _, Except.error _ => Decidable.isFalse (by simp)
  | Except.error _, Except.ok _ => Decidable.isFalse (by simp)

/-
Control-flow model of the two request handlers transcribe_audio
(main.py lines 317-375) and recognise_wake_word (main.py lines 377-445):
the temporary-file lifecycle and the order of validation, temp-file
creation, decoding and cleanup.  asyncio cancellation can only be delivered
at an await point; CancelledError derives from BaseException, so the
except Exception cleanup inside save_temp_file does not catch it.
-/

/-- Observable events of one request. -/
inductive Ev
  | validate       -- validate_audio_file ran
  | reject         -- an HTTPException rejected the request before a temp file existed
  | mkTemp         -- tempfile.mkstemp created the temporary file
  | audioDecode    -- raw-PCM / WAV decode work inside save_buffer_to_temp_file
  | writeTemp      -- the payload was written to the temporary file
  | transcribeCall -- whisper transcription was invoked on the temp file
  | detectCall     -- wake-word detection ran (recognise endpoint only)
  | unlinkTemp     -- the finally block deleted the temporary file
  deriving DecidableEq

/-- How the handler coroutine finished. -/
inductive Outcome
  | ok        -- returned a JSONResponse
  | errored   -- an HTTPException propagated (client or server error)
  | cancelled -- asyncio.CancelledError propagated
  deriving DecidableEq

/-- The await points at which cancellation can be delivered. -/
inductive CancelPt
  | atBody       -- await request.body() (buffer branch, before any temp file)
  | atValidate   -- awaiting validation (upload branch, before any temp file)
  | atUploadRead -- await file.read() inside save_temp_file, after mkstemp
  | atTranscribe -- await whisper_service.transcribe, after temp_path is recorded
  deriving DecidableEq

/-- An upload-branch request, with fault-injection flags for the fallible
steps of save_temp_file. -/
structure UploadReq where
  contentLen : ℕ       -- length of the uploaded bytes; UploadFile.size metadata
  ctypeAllowed : Bool  -- declared content type passes the allow-list
  readFails : Bool     -- await file.read() raises an ordinary Exception
  writeFails : Bool    -- the write after os.fdopen raises an ordinary Exception
  deriving DecidableEq

/-- A JSON-buffer-branch request. -/
structure BufferReq where
  bodyPresent : Bool          -- request body non-empty
  jsonValid : Bool            -- body parses as JSON
  hasAudioBufferField : Bool  -- "audio_buffer" key present
  decodedLen : ℕ              -- length of the base64-decoded audio bytes
  formatWav : Bool            -- format field is "wav" (decode work happens)
  saveRaises : Bool           -- an exception escapes save_buffer_to_temp_file
  deriving DecidableEq

/-- One inbound request to either endpoint. -/
inductive Req
  | upload (u : UploadReq)
  | buffer (b : BufferReq)
  deriving DecidableEq

/-- A request together with its schedule: where (if anywhere) cancellation is
delivered, and whether transcription fails. -/
structure RunCfg where
  req : Req
  cancel : Option CancelPt
  transcribeFails : Bool
  deriving DecidableEq

/-- What one handler run left behind. -/
structure RunOut where
  trace : List Ev
  tempLeft : Bool  -- a temporary file is still on disk when the handler returns
  exit : Outcome
  deriving DecidableEq

/-- 25 * 1024 * 1024, the hard size ceiling (main.py lines 199 and 348). -/
def sizeLimit : ℕ := 25 * 1024 * 1024

/-- validate_audio_file (main.py lines 197-205): returns true when it raises.
The size guard is if file.size and file.size > limit, so a missing or zero
size is skipped (Python truthiness). -/
def validate_audio_file (size : Option ℕ) (ctypeAllowed : Bool) : Bool :=
  (match size with
   | none => false
   | some s => decide (0 < s) && decide (sizeLimit < s)) || !ctypeAllowed

/-- How a save step ended. -/
inductive SaveRes
  | okPath       -- returned the temp path normally
  | raised       -- raised an ordinary Exception
  | raisedCancel -- CancelledError propagated out
  deriving DecidableEq

/-- save_temp_file (main.py lines 207-222): mkstemp, await file.read(), write.
A CancelledError at the read is not caught by except Exception, so the file
created by mkstemp stays on disk; an ordinary read failure is caught and the
file is unlinked; a write failure after os.fdopen leaves the descriptor
closed, so the cleanup's os.close raises EBADF before reaching the unlink
and the file also stays on disk. -/
def save_temp_file_run (u : UploadReq) (cancelAtRead : Bool) : List Ev × Bool × SaveRes :=
  if cancelAtRead then ([Ev.mkTemp], true, SaveRes.raisedCancel)
  else if u.readFails then ([Ev.mkTemp], false, SaveRes.raised)
  else if u.writeFails then ([Ev.mkTemp], true, SaveRes.raised)
  else ([Ev.mkTemp, Ev.writeTemp], true, SaveRes.okPath)

/-- save_buffer_to_temp_file (main.py lines 224-294): mkstemp, then for "wav"
the decode/fallback chain, else a direct write.  It contains no await, so
cancellation cannot be delivered inside it; its outer except closes the
descriptor with a bare except, unlinks, and re-raises. -/
def save_buffer_to_temp_file_run (b : BufferReq) : List Ev × Bool × SaveRes :=
  if b.saveRaises then ([Ev.mkTemp], false, SaveRes.raised)
  else if b.formatWav then ([Ev.mkTemp, Ev.audioDecode, Ev.writeTemp], true, SaveRes.okPath)
  else ([Ev.mkTemp, Ev.writeTemp], true, SaveRes.okPath)

/-- The tail of either handler once temp_path is recorded: transcription
(and detection for the recognise endpoint), then the finally block, which
always unlinks the recorded temp file. -/
def afterTemp (withDetect : Bool) (cfg : RunCfg) (evs : List Ev) : RunOut :=
  if cfg.cancel = some CancelPt.atTranscribe then
    ⟨evs ++ [Ev.transcribeCall, Ev.unlinkTemp], false, Outcome.cancelled⟩
  else if cfg.transcribeFails then
    ⟨evs ++ [Ev.transcribeCall, Ev.unlinkTemp], false, Outcome.errored⟩
  else if withDetect then
    ⟨evs ++ [Ev.transcribeCall, Ev.detectCall, Ev.unlinkTemp], false, Outcome.ok⟩
  else ⟨evs ++ [Ev.transcribeCall, Ev.unlinkTemp], false, Outcome.ok⟩

/-- Resume a handler after its save step: a CancelledError or Exception from
the save leaves whatever the save left on disk (temp_path was never
assigned, so the finally block deletes nothing); a normal return continues
to transcription with the path recorded. -/
def handlerAfterSave (withDetect : Bool) (cfg : RunCfg) (evs : List Ev) (fs : Bool) :
    SaveRes → RunOut
  | SaveRes.raisedCancel => ⟨evs, fs, Outcome.cancelled⟩
  | SaveRes.raised => ⟨evs, fs, Outcome.errored⟩
  | SaveRes.okPath => afterTemp withDetect cfg evs

/-- The shared shape of transcribe_audio and recognise_wake_word: the
try/except/finally of main.py lines 320-375 and 380-445.  The finally block
unlinks only when temp_path was assigned, so a save step that raises before
returning its path leaves whatever it left on disk. -/
def handler_run (withDetect : Bool) (cfg : RunCfg) : RunOut :=
  match cfg.req with
  | Req.upload u =>
    if cfg.cancel = some CancelPt.atValidate then ⟨[Ev.validate], false, Outcome.cancelled⟩
    else if validate_audio_file (some u.contentLen) u.ctypeAllowed then
      ⟨[Ev.validate, Ev.reject], false, Outcome.errored⟩
    else
      let s := save_temp_file_run u (decide (cfg.cancel = some CancelPt.atUploadRead))
      handlerAfterSave withDetect cfg (Ev.validate :: s.1) s.2.1 s.2.2
  | Req.buffer b =>
    if cfg.cancel = some CancelPt.atBody then ⟨[], false, Outcome.cancelled⟩
    else if !b.bodyPresent then ⟨[Ev.reject], false, Outcome.errored⟩
    else if !b.jsonValid then ⟨[Ev.reject], false, Outcome.errored⟩
    else if !b.hasAudioBufferField then ⟨[Ev.reject], false, Outcome.errored⟩
    else if decide (sizeLimit < b.decodedLen) then ⟨[Ev.reject], false, Outcome.errored⟩
    else
      let s := save_buffer_to_temp_file_run b
      handlerAfterSave withDetect cfg s.1 s.2.1 s.2.2

/-- POST /api/v1/listen (main.py lines 317-375). -/
def transcribe_audio_run : RunCfg → RunOut := handler_run false

/-- POST /api/v1/recognise (main.py lines 377-445). -/
def recognise_wake_word_run : RunCfg → RunOut := handler_run true

/-- The decoded audio input of a request: the uploaded bytes, or the
base64-decoded buffer. -/
def decodedLenOf : Req → ℕ
  | Req.upload u => u.contentLen
  | Req.buffer b => b.decodedLen

/-- A request demonstrating the C1 leak: upload branch, cancellation
delivered at the await file.read() inside save_temp_file. -/
def leakCfg : RunCfg :=
  ⟨Req.upload ⟨5, true, false, false⟩, some CancelPt.atUploadRead, false⟩

/-
Theorems.
-/

/-- C2: for every transcript, if the voice-activity gate reports no speech,
detect returns detected = false, confidence = 0.0,
reason = "No speech activity detected" immediately, regardless of the
transcript's content. -/
theorem gate_veto (gate : List ℕ → ℕ → Bool) (t : List Char) (bs : List ℕ) (sr : ℕ)
    (hne : bs.isEmpty = false) (hg : gate bs sr = false) :
    detect gate t (some bs) sr =
      { detected := false, confidence := 0, reason := "No speech activity detected" } := by
  simp [detect, hasSpeechOf, hne, hg]

/-- C2 witness: the gate veto fires even on a transcript containing the wake
phrase verbatim. -/
theorem gate_veto_witness :
    detect (fun _ _ => false) ("hi nova".data) (some [1]) 16000 =
      { detected := false, confidence := 0, reason := "No speech activity detected" } :=
  gate_veto (fun _ _ => false) ("hi nova".data) [1] 16000 rfl rfl

/-- C10: when detect is invoked with audio_data absent (None) or an empty
byte string, the gate is never consulted (the result is the same for every
gate oracle) and has_speech is assumed true, so the result is exactly the
text-matching path. -/
theorem no_audio_text_only (g g2 : List ℕ → ℕ → Bool) (t : List Char) (sr sr2 : ℕ) :
    detect g t none sr = detect_text t
    ∧ detect g t (some []) sr = detect_text t
    ∧ detect g t none sr = detect g2 t (some []) sr2 := by
  simp [detect, hasSpeechOf]

/-- C8: if any step of the gate body (resampling or frame analysis) raises,
has_speech_activity returns true: the gate fails open and never propagates
the error. -/
theorem vad_fail_open (resample : List ℕ → Except String (List ℕ))
    (vad : List ℕ → Except String Bool) (audio : List ℕ) (sr : ℕ) (e : String)
    (h : gateBody resample vad audio sr = Except.error e) :
    has_speech_activity resample vad audio sr = true := by
  simp [has_speech_activity, h]

/-- C8 witness: a resampling failure (non-16 kHz input, raising resampler)
yields has_speech = true. -/
theorem vad_fail_open_witness :
    has_speech_activity (fun _ => Except.error "librosa failed")
      (fun _ => Except.ok false) [1, 2, 3] 8000 = true :=
  vad_fail_open (fun _ => Except.error "librosa failed") (fun _ => Except.ok false)
    [1, 2, 3] 8000 "librosa failed" rfl

/-- C4: decoding a raw-PCM buffer with a bit depth outside {8, 16, 32} fails
with the unsupported-bit-depth error and produces no decoded output. -/
theorem unsupported_bit_depth_rejected (buf : List ℕ) (channels bd : ℕ)
    (h8 : bd ≠ 8) (h16 : bd ≠ 16) (h32 : bd ≠ 32) :
    save_buffer_raw_pcm buf channels bd = Except.error PcmError.unsupportedBitDepth := by
  have hf : audio_float buf bd = Except.error PcmError.unsupportedBitDepth := by
    simp [audio_float, h8, h16, h32]
  simp [save_buffer_raw_pcm, hf]

/-- C4 witness: bit depth 24 is rejected. -/
theorem unsupported_bit_depth_rejected_witness :
    save_buffer_raw_pcm [1, 2, 3] 1 24 = Except.error PcmError.unsupportedBitDepth :=
  unsupported_bit_depth_rejected [1, 2, 3] 1 24 (by decide) (by decide) (by decide)

/-- C5: when the float samples decode successfully but their count does not
divide evenly into channels > 1, the reshape fails with the
channel-mismatch error. -/
theorem channel_mismatch_rejected (buf : List ℕ) (channels bd : ℕ) (xs : List ℚ)
    (hf : audio_float buf bd = Except.ok xs) (hc : 1 < channels)
    (hm : xs.length % channels ≠ 0) :
    save_buffer_raw_pcm buf channels bd = Except.error PcmError.channelMismatch := by
  simp [save_buffer_raw_pcm, hf, hc, hm]

/-- C5 witness: channels = 2 on a 6-byte 16-bit buffer (3 samples, odd)
fails with the channel-mismatch error. -/
theorem channel_mismatch_rejected_witness :
    save_buffer_raw_pcm [0, 0, 0, 0, 0, 0] 2 16 = Except.error PcmError.channelMismatch :=
  channel_mismatch_rejected [0, 0, 0, 0, 0, 0] 2 16 [0, 0, 0]
    (by
      have h1 : int16s [0, 0, 0, 0, 0, 0] = [0, 0, 0] := by decide
      simp [audio_float, frombuffer16, h1, Except.map])
    (by decide) (by decide)

/-- C6: for the supported bit depths the code's inline float conversion is
exactly the spec's rescale rule (16-bit / 32768.0, 32-bit / 2147483648.0,
8-bit minus 128.0 then / 128.0), and applying the inverse rescale recovers
the original integer samples exactly in the rational model. -/
theorem pcm_rescale_roundtrip (buf : List ℕ) (bd : ℕ)
    (hbd : bd = 8 ∨ bd = 16 ∨ bd = 32) (xs : List ℤ)
    (hx : audio_array buf bd = Except.ok xs) :
    audio_float buf bd = Except.ok (xs.map (pcmRescale bd))
    ∧ xs.map (fun v => pcmUnscale bd (pcmRescale bd v)) = xs.map (fun v : ℤ => (v : ℚ)) := by
  rcases hbd with h | h | h <;> subst h
  · refine ⟨?_, ?_⟩
    · simp only [audio_array] at hx
      simp at hx
      subst hx
      simp only [audio_float]
      simp [List.map_map, Function.comp, pcmRescale]
    · refine List.map_congr_left fun v _ => ?_
      simp only [pcmRescale, pcmUnscale]
      norm_num
  · refine ⟨?_, ?_⟩
    · simp only [audio_array] at hx
      simp at hx
      simp only [audio_float]
      simp [hx, Except.map, pcmRescale]
    · refine List.map_congr_left fun v _ => ?_
      simp only [pcmRescale, pcmUnscale]
      norm_num
  · refine ⟨?_, ?_⟩
    · simp only [audio_array] at hx
      simp at hx
      simp only [audio_float]
      simp [hx, Except.map, pcmRescale]
    · refine List.map_congr_left fun v _ => ?_
      simp only [pcmRescale, pcmUnscale]
      norm_num

/-- C6 witness: a 16-bit buffer holding samples 0x1234 = 4660 and
0xFFFF = -1 rescales per the rule and round-trips exactly. -/
theorem pcm_rescale_roundtrip_witness :
    audio_float [52, 18, 255, 255] 16 = Except.ok ([(4660 : ℤ), -1].map (pcmRescale 16))
    ∧ [(4660 : ℤ), -1].map (fun v => pcmUnscale 16 (pcmRescale 16 v))
        = [(4660 : ℤ), -1].map (fun v : ℤ => (v : ℚ)) :=
  pcm_rescale_roundtrip [52, 18, 255, 255] 16 (Or.inr (Or.inl rfl)) [4660, -1] (by decide)

/-- The afterTemp tail always ends with the finally-block unlink: no
temporary file survives once temp_path was recorded. -/
theorem afterTemp_tempLeft (wd : Bool) (cfg : RunCfg) (evs : List Ev) :
    (afterTemp wd cfg evs).tempLeft = false := by
  simp only [afterTemp]
  repeat' split
  all_goals rfl

/-- What survives a handler run is exactly what a raising save step left. -/
theorem handlerAfterSave_tempLeft (wd : Bool) (cfg : RunCfg) (evs : List Ev) (fs : Bool)
    (r : SaveRes) :
    (handlerAfterSave wd cfg evs fs r).tempLeft
      = (if r = SaveRes.okPath then false else fs) := by
  cases r <;> simp [handlerAfterSave, afterTemp_tempLeft]

/-- C1 counterexample: a request cancelled at the await file.read() inside
save_temp_file creates the temporary file (mkTemp is in the trace) and exits
by cancellation with the file still on disk — CancelledError is a
BaseException, so the except Exception cleanup in save_temp_file is skipped,
and the handler's finally sees temp_path = None. -/
theorem temp_cleanup_counterexample :
    Ev.mkTemp ∈ (transcribe_audio_run leakCfg).trace
    ∧ (transcribe_audio_run leakCfg).tempLeft = true
    ∧ (transcribe_audio_run leakCfg).exit = Outcome.cancelled := by decide

/-- Every handler run that avoids the two leaking paths (cancellation during
the upload read, and an upload write failure after os.fdopen) deletes its
temporary file. -/
theorem handler_no_leak (wd : Bool) (cfg : RunCfg)
    (hc : cfg.cancel ≠ some CancelPt.atUploadRead)
    (hw : ∀ u, cfg.req = Req.upload u → u.writeFails = false) :
    (handler_run wd cfg).tempLeft = false := by
  rcases cfg with ⟨req, cancel, tf⟩
  cases req with
  | upload u =>
    have hw2 : u.writeFails = false := hw u rfl
    rcases u with ⟨cl, ct, rf, wf⟩
    simp only at hw2
    subst hw2
    have hcb : decide (cancel = some CancelPt.atUploadRead) = false :=
      decide_eq_false (by simpa using hc)
    cases rf <;>
      simp only [handler_run, save_temp_file_run, hcb, handlerAfterSave_tempLeft,
        Bool.false_eq_true, if_false] <;>
      (repeat' split) <;> simp_all [handlerAfterSave_tempLeft]
  | buffer b =>
    rcases b with ⟨bp, jv, haf, dl, fw, sr2⟩
    cases fw <;> cases sr2 <;>
      simp only [handler_run, save_buffer_to_temp_file_run, handlerAfterSave_tempLeft] <;>
      (repeat' split) <;> simp_all [handlerAfterSave_tempLeft]

/-- C1 as amended: on both endpoints the temporary file is deleted on every
exit path — success, any ordinary raised error, and cancellation at any
await point — except the two paths on the upload branch where the file is
created but the handler never records its path: cancellation delivered at
the await file.read() inside save_temp_file, and a write failure after
os.fdopen (whose cleanup raises EBADF on the already-closed descriptor
before reaching the unlink). -/
theorem temp_cleanup_amended (cfg : RunCfg)
    (hc : cfg.cancel ≠ some CancelPt.atUploadRead)
    (hw : ∀ u, cfg.req = Req.upload u → u.writeFails = false) :
    (transcribe_audio_run cfg).tempLeft = false
    ∧ (recognise_wake_word_run cfg).tempLeft = false :=
  ⟨handler_no_leak false cfg hc hw, handler_no_leak true cfg hc hw⟩

/-- C1 witness: an uncancelled buffer request leaves no temporary file on
either endpoint. -/
theorem temp_cleanup_amended_witness :
    (transcribe_audio_run ⟨Req.buffer ⟨true, true, true, 100, true, false⟩, none, false⟩).tempLeft
        = false
    ∧ (recognise_wake_word_run ⟨Req.buffer ⟨true, true, true, 100, true, false⟩, none,
        false⟩).tempLeft = false :=
  temp_cleanup_amended ⟨Req.buffer ⟨true, true, true, 100, true, false⟩, none, false⟩
    (by decide) (fun u h => by cases h)

/-- Any oversized request is turned away before mkstemp and before any
decode work, on either endpoint shape. -/
theorem handler_oversize (wd : Bool) (cfg : RunCfg)
    (h : sizeLimit < decodedLenOf cfg.req) :
    Ev.mkTemp ∉ (handler_run wd cfg).trace
    ∧ Ev.audioDecode ∉ (handler_run wd cfg).trace
    ∧ (handler_run wd cfg).tempLeft = false
    ∧ (cfg.cancel = none → (handler_run wd cfg).exit = Outcome.errored) := by
  rcases cfg with ⟨req, cancel, tf⟩
  cases req with
  | upload u =>
    simp only [decodedLenOf] at h
    have h0 : 0 < u.contentLen := by
      have hs : 0 < sizeLimit := by norm_num [sizeLimit]
      omega
    have hv : validate_audio_file (some u.contentLen) u.ctypeAllowed = true := by
      simp [validate_audio_file, h, h0]
    simp only [handler_run, hv]
    (repeat' split) <;>
      first
        | exact ⟨by decide, by decide, rfl, fun _ => rfl⟩
        | (refine ⟨by decide, by decide, rfl, ?_⟩; intro he; simp_all)
        | simp_all
  | buffer b =>
    simp only [decodedLenOf] at h
    simp only [handler_run]
    (repeat' split) <;>
      first
        | exact ⟨by decide, by decide, rfl, fun _ => rfl⟩
        | (refine ⟨by decide, by decide, rfl, ?_⟩; intro he; simp_all)
        | simp_all

/-- C9: a request whose decoded audio input exceeds 25 MiB never creates a
temporary file and never reaches decode work on either endpoint: the trace
contains no mkstemp and no decode event, nothing is left on disk, and (when
the request is not cancelled first) it exits with an error rejection. -/
theorem oversize_rejected_before_temp (cfg : RunCfg)
    (h : sizeLimit < decodedLenOf cfg.req) :
    (Ev.mkTemp ∉ (transcribe_audio_run cfg).trace
      ∧ Ev.audioDecode ∉ (transcribe_audio_run cfg).trace
      ∧ (transcribe_audio_run cfg).tempLeft = false
      ∧ (cfg.cancel = none → (transcribe_audio_run cfg).exit = Outcome.errored))
    ∧ (Ev.mkTemp ∉ (recognise_wake_word_run cfg).trace
      ∧ Ev.audioDecode ∉ (recognise_wake_word_run cfg).trace
      ∧ (recognise_wake_word_run cfg).tempLeft = false
      ∧ (cfg.cancel = none → (recognise_wake_word_run cfg).exit = Outcome.errored)) :=
  ⟨handler_oversize false cfg h, handler_oversize true cfg h⟩

/-- C9 witness: a 25 MiB + 1 byte buffer request is rejected with no temp
file and no decode work on either endpoint. -/
theorem oversize_rejected_before_temp_witness :
    (Ev.mkTemp ∉ (transcribe_audio_run ⟨Req.buffer ⟨true, true, true, 26214401, true, false⟩,
        none, false⟩).trace
      ∧ Ev.audioDecode ∉ (transcribe_audio_run ⟨Req.buffer ⟨true, true, true, 26214401, true,
          false⟩, none, false⟩).trace
      ∧ (transcribe_audio_run ⟨Req.buffer ⟨true, true, true, 26214401, true, false⟩, none,
          false⟩).tempLeft = false
      ∧ ((⟨Req.buffer ⟨true, true, true, 26214401, true, false⟩, none, false⟩ : RunCfg).cancel
            = none →
          (transcribe_audio_run ⟨Req.buffer ⟨true, true, true, 26214401, true, false⟩, none,
            false⟩).exit = Outcome.errored))
    ∧ (Ev.mkTemp ∉ (recognise_wake_word_run ⟨Req.buffer ⟨true, true, true, 26214401, true,
          false⟩, none, false⟩).trace
      ∧ Ev.audioDecode ∉ (recognise_wake_word_run ⟨Req.buffer ⟨true, true, true, 26214401,
          true, false⟩, none, false⟩).trace
      ∧ (recognise_wake_word_run ⟨Req.buffer ⟨true, true, true, 26214401, true, false⟩, none,
          false⟩).tempLeft = false
      ∧ ((⟨Req.buffer ⟨true, true, true, 26214401, true, false⟩, none, false⟩ : RunCfg).cancel
            = none →
          (recognise_wake_word_run ⟨Req.buffer ⟨true, true, true, 26214401, true, false⟩,
            none, false⟩).exit = Outcome.errored)) :=
  oversize_rejected_before_temp ⟨Req.buffer ⟨true, true, true, 26214401, true, false⟩, none,
    false⟩ (by norm_num [sizeLimit, decodedLenOf])

theorem frame_size_eq : frame_size = 960 := rfl

theorem anyCongrOn {α : Type} (l : List α) (f g : α → Bool)
    (h : ∀ x ∈ l, f x = g x) : l.any f = l.any g := by
  induction l with
  | nil => rfl
  | cons a t ih =>
    simp only [List.any_cons, h a (by simp)]
    rw [ih fun x hx => h x (by simp [hx])]

theorem any_map_comp {α β : Type} (l : List α) (f : α → β) (p : β → Bool) :
    (l.map f).any p = l.any fun x => p (f x) := by
  induction l with
  | nil => rfl
  | cons a t ih => simp [List.any_cons, ih]

theorem speechLoopE_pure (vad : List ℕ → Bool) (audio : List ℕ) (starts : List ℕ) :
    speechLoopE (fun f => Except.ok (vad f)) audio starts
      = Except.ok (starts.any fun i =>
          decide ((frameAt audio i).length = frame_size) && vad (frameAt audio i)) := by
  induction starts with
  | nil => rfl
  | cons i rest ih =>
    simp only [speechLoopE, List.any_cons]
    split
    · rename_i hlen
      rcases hv : vad (frameAt audio i) with _ | _
      · simp [hv, ih, hlen]
      · simp [hv, hlen]
    · rename_i hlen
      simp [ih, hlen]

theorem gate_pure_eq_any_starts (resample : List ℕ → Except String (List ℕ))
    (vad : List ℕ → Bool) (audio : List ℕ) :
    has_speech_activity resample (fun f => Except.ok (vad f)) audio 16000
      = (vad_frame_starts audio.length).any fun i =>
          decide ((frameAt audio i).length = frame_size) && vad (frameAt audio i) := by
  have hif : (if (16000 : ℕ) ≠ 16000 then resample audio else Except.ok audio)
      = Except.ok audio := by simp
  simp only [has_speech_activity, gateBody, hif, speechLoopE_pure]

theorem mem_vad_frame_starts {len i : ℕ} (h : i ∈ vad_frame_starts len) :
    i + frame_size ≤ len := by
  simp only [vad_frame_starts, pyRange3, frame_size_eq, List.mem_map, List.mem_range] at h ⊢
  obtain ⟨k, hk, rfl⟩ := h
  have hk2 : k + 1 ≤ (len - 960 - 0 + 960 - 1) / 960 := hk
  have h2 : (k + 1) * 960 ≤ len - 960 - 0 + 960 - 1 :=
    (Nat.le_div_iff_mul_le (by norm_num)).mp hk2
  omega

theorem frameAt_length {audio : List ℕ} {i : ℕ} (h : i + frame_size ≤ audio.length) :
    (frameAt audio i).length = frame_size := by
  simp only [frameAt, List.length_take, List.length_drop]
  omega

theorem starts_count (len : ℕ) :
    (len - 960 - 0 + 960 - 1) / 960 = if 960 ∣ len then len / 960 - 1 else len / 960 := by
  have hs : len - 960 - 0 + 960 - 1 = len - 960 + (960 - 1) := by omega
  rw [hs]
  rcases Nat.lt_or_ge len 960 with h | h
  · have h2 : len / 960 = 0 := Nat.div_eq_of_lt h
    have h3 : len - 960 = 0 := by omega
    rcases Nat.eq_zero_or_pos len with rfl | hp
    · simp
    · have h1 : ¬ 960 ∣ len := by
        rw [Nat.dvd_iff_mod_eq_zero]
        rw [Nat.mod_eq_of_lt h]
        omega
      rw [if_neg h1, h3, h2]
  · have hmod := Nat.div_add_mod len 960
    have hq1 : 1 ≤ len / 960 := (Nat.one_le_div_iff (by norm_num)).mpr h
    have hrlt : len % 960 < 960 := Nat.mod_lt _ (by norm_num)
    have hlen : len - 960 + (960 - 1) = len - 1 := by omega
    rw [hlen]
    by_cases hd : 960 ∣ len
    · rw [if_pos hd]
      have hr0 : len % 960 = 0 := Nat.mod_eq_zero_of_dvd hd
      have he : len - 1 = 960 * (len / 960 - 1) + 959 := by omega
      rw [he, Nat.mul_add_div (by norm_num)]
      norm_num
    · rw [if_neg hd]
      have hr0 : len % 960 ≠ 0 := fun h0 => hd (Nat.dvd_iff_mod_eq_zero.mpr h0)
      have he : len - 1 = 960 * (len / 960) + (len % 960 - 1) := by omega
      rw [he, Nat.mul_add_div (by norm_num)]
      have hz : (len % 960 - 1) / 960 = 0 := Nat.div_eq_of_lt (by omega)
      omega

theorem starts_map_frames (audio : List ℕ) :
    (vad_frame_starts audio.length).map (frameAt audio) = analyzedFrames audio := by
  simp only [vad_frame_starts, pyRange3, analyzedFrames, fullFrames, frame_size_eq]
  rw [List.map_map, starts_count audio.length]
  by_cases hd : 960 ∣ audio.length
  · rw [if_pos hd, if_pos hd]
    rcases Nat.eq_zero_or_pos (audio.length / 960) with h0 | h0
    · rw [h0]
      simp
    · obtain ⟨m, hm⟩ : ∃ m, audio.length / 960 = m + 1 :=
        ⟨audio.length / 960 - 1, by omega⟩
      rw [hm, List.range_succ, List.map_append]
      simp only [List.map_cons, List.map_nil, List.dropLast_concat]
      simp only [Nat.add_sub_cancel]
      refine List.map_congr_left fun k hk => ?_
      have harg : 0 + k * 960 = 960 * k := by omega
      simp only [Function.comp]
      rw [harg]
  · rw [if_neg hd, if_neg hd]
    refine List.map_congr_left fun k hk => ?_
    have harg : 0 + k * 960 = 960 * k := by omega
    simp only [Function.comp]
    rw [harg]

/-- C7 as amended: at 16 kHz the gate splits the buffer into 960-byte frames
and reports speech iff some analyzed frame is speech, but the analyzed
frames are the full frames starting strictly below len - 960: the partial
tail frame is discarded and, when 960 divides the length exactly, the final
full frame is discarded too (a buffer of exactly one frame analyzes
nothing).  On an all-zero buffer (of any length, in particular longer than
one frame) the gate returns false whenever the voice-activity model
classifies a zero frame as non-speech. -/
theorem vad_framing_amended (resample : List ℕ → Except String (List ℕ))
    (vad : List ℕ → Bool) (audio : List ℕ) :
    has_speech_activity resample (fun f => Except.ok (vad f)) audio 16000
      = (analyzedFrames audio).any vad
    ∧ ((∀ x ∈ audio, x = 0) → vad (List.replicate frame_size 0) = false →
        has_speech_activity resample (fun f => Except.ok (vad f)) audio 16000 = false) := by
  have hmain : has_speech_activity resample (fun f => Except.ok (vad f)) audio 16000
      = (analyzedFrames audio).any vad := by
    rw [gate_pure_eq_any_starts]
    rw [anyCongrOn _ _ (fun i => vad (frameAt audio i))
      (fun i hi => by simp [frameAt_length (mem_vad_frame_starts hi)])]
    rw [← starts_map_frames, any_map_comp]
  refine ⟨hmain, fun hz hv0 => ?_⟩
  rw [hmain]
  rw [List.any_eq_false]
  intro f hf
  have hf2 : f ∈ fullFrames audio := by
    simp only [analyzedFrames] at hf
    split at hf
    · exact (List.dropLast_sublist _).subset hf
    · exact hf
  simp only [fullFrames, List.mem_map, List.mem_range] at hf2
  obtain ⟨k, hk, rfl⟩ := hf2
  have hrep : audio = List.replicate audio.length 0 := List.eq_replicate_length.mpr hz
  have hlen : frame_size * k + frame_size ≤ audio.length := by
    have h2 : (k + 1) * 960 ≤ audio.length :=
      (Nat.le_div_iff_mul_le (by norm_num)).mp (by
        rw [frame_size_eq] at hk
        omega)
    rw [frame_size_eq]
    omega
  have hframe : frameAt audio (frame_size * k) = List.replicate frame_size 0 := by
    rw [hrep]
    simp only [frameAt, List.drop_replicate, List.take_replicate]
    congr 1
    rw [hrep] at hlen
    simp only [List.length_replicate] at hlen
    omega
  rw [hframe, hv0]
  simp

set_option maxRecDepth 40000 in
/-- C7 counterexample: a 960-byte buffer is exactly one full frame, yet the
loop range(0, len - frame_size, frame_size) is empty, so the gate returns
false even though the single full frame is classified as speech — the code
does not discard only the partial tail frame. -/
theorem vad_framing_counterexample :
    has_speech_activity (fun a => Except.ok a) (fun f => Except.ok (f.any (fun b => b != 0)))
        (List.replicate 960 1) 16000 = false
    ∧ claimGate (fun f => f.any (fun b => b != 0)) (List.replicate 960 1) = true := by
  refine ⟨rfl, ?_⟩
  rfl

set_option maxRecDepth 40000 in
/-- C7 witness: a 1000-byte all-zero buffer (longer than one frame) yields
has_speech = false under a voice-activity oracle that flags any nonzero
byte. -/
theorem vad_framing_amended_witness :
    has_speech_activity (fun a => Except.ok a) (fun f => Except.ok (f.any (fun b => b != 0)))
        (List.replicate 1000 0) 16000 = false :=
  (vad_framing_amended (fun a => Except.ok a) (fun f => f.any (fun b => b != 0))
      (List.replicate 1000 0)).2
    (fun _ hx => List.eq_of_mem_replicate hx) rfl

/-- The index loop over words[i], words[i+1] enumerates exactly the zip of
the word list with its own tail. -/
theorem range_window_map {α β : Type} (d : α) (G : α → α → β) (ws : List α) :
    (List.range (ws.length - 1)).map (fun i => G (ws.getD i d) (ws.getD (i + 1) d))
      = (ws.zip ws.tail).map fun p => G p.1 p.2 := by
  induction ws with
  | nil => rfl
  | cons a t ih =>
    cases t with
    | nil => rfl
    | cons b t2 =>
      have hlen : (a :: b :: t2).length - 1 = t2.length + 1 := by simp
      rw [hlen, List.range_succ_eq_map]
      simp only [List.map_cons, List.map_map, List.tail_cons, List.zip_cons_cons,
        List.getD_cons_zero, List.getD_cons_succ]
      refine congrArg (G a b :: ·) ?_
      have ih2 := ih
      simp only [List.length_cons, Nat.add_sub_cancel, List.tail_cons] at ih2
      rw [← ih2]
      refine List.map_congr_left fun i _ => ?_
      simp [Function.comp, List.getD_cons_succ]

/-- C3: with speech present, detect on the cleaned (lower-cased, stripped)
transcript returns the direct-match result when the wake phrase occurs as a
contiguous substring, and otherwise scores with the maximum similarity over
the full transcript and every contiguous 2-word window: detected iff the
maximum reaches the 0.7 threshold, confidence min(max * 1.2, 1.0) rounded
to 2 decimals, and reason "Similarity score: {max:.2f}". -/
theorem detect_with_speech (g : List ℕ → ℕ → Bool) (t : List Char)
    (ad : Option (List ℕ)) (sr : ℕ) (hs : hasSpeechOf g ad sr = true) :
    (containsSub wake_phrase (transcript_clean t) = true →
        detect g t ad sr
          = { detected := true, confidence := 95 / 100, reason := "Direct match found" })
    ∧ (containsSub wake_phrase (transcript_clean t) = false →
        detect g t ad sr
          = { detected := decide (similarity_threshold ≤ max_similarity (transcript_clean t)),
              confidence := roundQ2 (min (max_similarity (transcript_clean t) * (6 / 5)) 1),
              reason := "Similarity score: " ++ fmt2 (max_similarity (transcript_clean t)) }) := by
  have hd : detect g t ad sr = detect_text t := by simp [detect, hs]
  have hloop : ∀ tc : List Char,
      (List.range ((pySplit tc).length - 1)).foldl
        (fun s i =>
          max s (similarity_score ((pySplit tc).getD i [] ++ ' ' :: (pySplit tc).getD (i + 1) [])
            wake_phrase))
        (similarity_score tc wake_phrase) = max_similarity tc := by
    intro tc
    rw [max_similarity, wake_window_sims]
    rw [← range_window_map ([] : List Char)
        (fun w1 w2 => similarity_score (w1 ++ ' ' :: w2) wake_phrase) (pySplit tc)]
    rw [List.foldl_map]
  constructor
  · intro hin
    rw [hd]
    simp only [detect_text, transcript_clean] at hin ⊢
    rw [if_pos hin]
  · intro hni
    rw [hd]
    simp only [detect_text, transcript_clean] at hni ⊢
    rw [if_neg (by simp [hni])]
    rw [hloop (pyStrip (pyLower t))]


theorem roundHalfEven_96 : roundHalfEven (96 : ℚ) = 96 := by
  simp only [roundHalfEven]
  norm_num

set_option maxRecDepth 80000 in
/-- C3 witness: detect on "hey nova" (no direct substring match) finds
maximum similarity 0.8 via the 2-word window, hence detected with
confidence 0.96 and reason "Similarity score: 0.80" — matching the
CPython reference run. -/
theorem detect_with_speech_witness :
    detect (fun _ _ => false) ("hey nova".data) none 16000
      = { detected := true, confidence := 24 / 25, reason := "Similarity score: 0.80" } := by
  have h := (detect_with_speech (fun _ _ => false) ("hey nova".data) none 16000 rfl).2
    (by decide)
  rw [h]
  have htc : transcript_clean ("hey nova".data) = "hey nova".data := by decide
  rw [htc]
  have hws : wake_window_sims ("hey nova".data)
      = [similarity_score ("hey nova".data) wake_phrase] := rfl
  have hmax : max_similarity ("hey nova".data)
      = similarity_score ("hey nova".data) wake_phrase := by
    rw [max_similarity, hws]
    simp [max_self]
  have hm6 : matchedTotalF 16 (pyLower ("hey nova".data)) (pyLower wake_phrase) = 6 := by
    decide
  have hl : (pyLower ("hey nova".data)).length + (pyLower wake_phrase).length = 15 := by decide
  have hr : similarity_score ("hey nova".data) wake_phrase = 4 / 5 := by
    simp only [similarity_score, ratioQ, hl]
    norm_num
    rw [hm6]
    norm_num
  rw [hmax, hr]
  have hdec : decide (similarity_threshold ≤ (4 : ℚ) / 5) = true := by
    simp only [similarity_threshold, decide_eq_true_eq]
    norm_num
  have hconf : roundQ2 (min ((4 : ℚ) / 5 * (6 / 5)) 1) = 24 / 25 := by
    have k1 : (4 : ℚ) / 5 * (6 / 5) = 24 / 25 := by norm_num
    rw [k1, min_eq_left (by norm_num : (24 : ℚ) / 25 ≤ 1)]
    simp only [roundQ2]
    have k2 : (24 : ℚ) / 25 * 100 = 96 := by norm_num
    rw [k2, roundHalfEven_96]
    norm_num
  have hfmt : fmt2 ((4 : ℚ) / 5) = "0.80" := by
    simp only [fmt2]
    have k4 : (4 : ℚ) / 5 * 100 = 80 := by norm_num
    rw [k4]
    have k5 : roundHalfEven (80 : ℚ) = 80 := by
      simp only [roundHalfEven]
      norm_num
    rw [k5]
    decide
  rw [hdec, hconf, hfmt]
  rfl

end Nova
